import Mathlib

/-!
Shallow embedding of the real-time subscription, reconnection and
candle-reconciliation engine of the traderx-app client.

Sources embedded:
- `WebSocketService` (src/unnamed/part_001): connection lifecycle,
  reconnection backoff, event-callback registry, symbol subscriptions.
- `useChartData` (src/unnamed/part_001): REST snapshot fetch, request
  abort/reissue, state update on resolution.
- `Chart` real-time update effect (src/src/components/ThemeToggle.tsx):
  applying a live tick to the last candle of the displayed series.

Prices are modelled as integers (the source uses JS numbers; every claim
is about order/equality structure, not rounding), timestamps and volumes
as naturals/integers. Stateful TS methods become functions from state to
state, paired with the list of control frames emitted on the wire.
-/

namespace TraderX

/-- Outbound control frames sent on the wire
(`this.send({type: 'subscribe', symbol})` etc. in WebSocketService). -/
inductive Frame where
  | subscribe (symbol : String)
  | unsubscribe (symbol : String)
  | ping
deriving Repr, DecidableEq

/-- An inbound frame after JSON decoding: `WebSocketMessage` of
src/src/types/index.ts restricted to the fields the dispatcher reads
(`message.type` keys the callback map, `message.data` is forwarded). -/
structure WebSocketMessage where
  type : String
  data : String
deriving Repr, DecidableEq

/-- The mutable fields of class `WebSocketService` (src/unnamed/part_001).
`wsOpen` stands for `this.ws !== null && this.ws.readyState === OPEN`;
callbacks are identified by numeric ids standing for the JS closures in
`Map<string, WebSocketCallback[]>`. -/
structure WebSocketService where
  wsOpen : Bool
  isConnecting : Bool
  reconnectAttempts : Nat
  maxReconnectAttempts : Nat
  reconnectDelay : Nat
  callbacks : List (String × List Nat)
  subscribedSymbols : List String
  pingActive : Bool
deriving Repr, DecidableEq

/-- Field initializers of `WebSocketService` (reconnectAttempts = 0,
maxReconnectAttempts = 5, reconnectDelay = 1000, empty registries). -/
def initialService : WebSocketService where
  wsOpen := false
  isConnecting := false
  reconnectAttempts := 0
  maxReconnectAttempts := 5
  reconnectDelay := 1000
  callbacks := []
  subscribedSymbols := []
  pingActive := false

/-- `send(message)`: emits the frame when the socket is open, otherwise
only warns (no frame on the wire). -/
def send (s : WebSocketService) (f : Frame) : List Frame :=
  if s.wsOpen then [f] else []

/-- `subscribeToSymbol(symbol)`: early-returns when the symbol is already
in `subscribedSymbols`; otherwise adds it and sends a subscribe frame. -/
def subscribeToSymbol (s : WebSocketService) (symbol : String) :
    WebSocketService × List Frame :=
  if symbol ∈ s.subscribedSymbols then (s, [])
  else
    let s1 := { s with subscribedSymbols := s.subscribedSymbols ++ [symbol] }
    (s1, send s1 (Frame.subscribe symbol))

/-- `unsubscribeFromSymbol(symbol)`: early-returns when the symbol is not
subscribed; otherwise removes it and sends an unsubscribe frame. -/
def unsubscribeFromSymbol (s : WebSocketService) (symbol : String) :
    WebSocketService × List Frame :=
  if symbol ∈ s.subscribedSymbols then
    let s1 := { s with subscribedSymbols := s.subscribedSymbols.erase symbol }
    (s1, send s1 (Frame.unsubscribe symbol))
  else (s, [])

/-- Helper for looking a key up in the callback map (`Map.get`). -/
def getCallbacks : List (String × List Nat) → String → List Nat
  | [], _ => []
  | (k, cbs) :: rest, e => if k = e then cbs else getCallbacks rest e

/-- Helper for `Map.get(event)!.push(callback)` with creation of the
entry when absent. -/
def addCallback : List (String × List Nat) → String → Nat → List (String × List Nat)
  | [], e, cb => [(e, [cb])]
  | (k, cbs) :: rest, e, cb =>
    if k = e then (k, cbs ++ [cb]) :: rest
    else (k, cbs) :: addCallback rest e cb

/-- `subscribe(event, callback)`: registers a callback id under a
message-kind key (the returned closure that removes it again is not
needed for the properties below). -/
def subscribe (s : WebSocketService) (event : String) (cb : Nat) :
    WebSocketService :=
  { s with callbacks := addCallback s.callbacks event cb }

/-- `handleMessage(message)`: looks the message type up in the callback
map and invokes every registered callback with `message.data`. The
result lists the invocations (callback id, argument). -/
def handleMessage (s : WebSocketService) (m : WebSocketMessage) :
    List (Nat × String) :=
  (getCallbacks s.callbacks m.type).map (fun cb => (cb, m.data))

/-- The `ws.onmessage` handler: `JSON.parse` either yields a message or
throws; the catch branch logs and drops the frame. `none` stands for a
frame on which the parse throws. -/
def onMessageEvent (s : WebSocketService) (parsed : Option WebSocketMessage) :
    List (Nat × String) :=
  match parsed with
  | none => []
  | some m => handleMessage s m

/-- Processing a sequence of inbound frames in arrival order (the
callback registry is not changed by dispatch itself). -/
def processFrames (s : WebSocketService) :
    List (Option WebSocketMessage) → List (Nat × String)
  | [] => []
  | f :: rest => onMessageEvent s f ++ processFrames s rest

/-- `subscribedSymbols.forEach(symbol => this.subscribeToSymbol(symbol))`,
threading the state and collecting emitted frames. -/
def subAll (s : WebSocketService) (l : List String) (acc : List Frame) :
    WebSocketService × List Frame :=
  match l with
  | [] => (s, acc)
  | sym :: rest =>
    let r := subscribeToSymbol s sym
    subAll r.1 rest (acc ++ r.2)

/-- `resubscribeToSymbols()`: iterates the subscribed-symbol set, calling
`subscribeToSymbol` on each element. -/
def resubscribeToSymbols (s : WebSocketService) : WebSocketService × List Frame :=
  subAll s s.subscribedSymbols []

/-- The `ws.onopen` handler: socket now open, `isConnecting = false`,
attempt counter reset, ping interval started, then
`resubscribeToSymbols()`. Returns the new state and the frames emitted
by the resubscription pass. -/
def onOpen (s : WebSocketService) : WebSocketService × List Frame :=
  resubscribeToSymbols
    { s with wsOpen := true, isConnecting := false,
             reconnectAttempts := 0, pingActive := true }

/-- `handleReconnect()`: when the attempt counter has reached the
maximum, returns without scheduling; otherwise increments the counter
and schedules `connect()` after `reconnectDelay * 2^(attempts-1)` ms.
The second component is the scheduled delay, `none` when nothing is
scheduled. -/
def handleReconnect (s : WebSocketService) : WebSocketService × Option Nat :=
  if s.reconnectAttempts ≥ s.maxReconnectAttempts then (s, none)
  else
    let a := s.reconnectAttempts + 1
    ({ s with reconnectAttempts := a }, some (s.reconnectDelay * 2 ^ (a - 1)))

/-- The `ws.onclose` handler: `isConnecting = false`, ping interval
stopped, then `handleReconnect()`. -/
def onClose (s : WebSocketService) : WebSocketService × Option Nat :=
  handleReconnect { s with wsOpen := false, isConnecting := false, pingActive := false }

/-- `disconnect()`: stops the ping interval, closes and drops the socket,
clears the callback map and the subscribed-symbol set. (The close event
subsequently fired by the socket is `onClose`.) -/
def disconnect (s : WebSocketService) : WebSocketService :=
  { s with pingActive := false, wsOpen := false,
           callbacks := [], subscribedSymbols := [] }

/-- Delays scheduled by repeatedly failing connections: each failure
fires the close/error path which calls `handleReconnect`; the list
records, for `n` consecutive failures, what each call scheduled. -/
def reconnectDelays : WebSocketService → Nat → List (Option Nat)
  | _, 0 => []
  | s, n + 1 =>
    let r := handleReconnect s
    r.2 :: reconnectDelays r.1 n

/-- `ChartDataPoint` of the `useChartData` hook (one candle of the
series; `open` is a Lean keyword, embedded as `open_`). -/
structure ChartDataPoint where
  time : Nat
  open_ : Int
  high : Int
  low : Int
  close : Int
  volume : Int
  symbol : String
  exchange : String
deriving Repr, DecidableEq

/-- The `chartInfo` state of `useChartData`. -/
structure ChartInfo where
  dataSource : String
  latestPrice : Int
  realTime : Bool
  tickCount : Nat
deriving Repr, DecidableEq

/-- `ChartDataResponse` of the REST snapshot endpoint, restricted to the
fields `fetchData` reads. -/
structure ChartDataResponse where
  symbol : String
  timeframe : String
  data : List ChartDataPoint
  data_source : String
  latest_price : Int
  real_time : Bool
  tick_count : Nat
deriving Repr, DecidableEq

/-- The hook state that `fetchData` writes on resolution. -/
structure ChartHookState where
  data : List ChartDataPoint
  error : Option String
  chartInfo : Option ChartInfo
deriving Repr, DecidableEq

/-- Resolution of a snapshot fetch in `useChartData.fetchData`:
`none` is the `!response || !response.data` branch (data emptied,
`chartInfo` set to the `no_data` placeholder); otherwise
`setData(response.data)` replaces the stored series and `chartInfo` is
rebuilt from the response. `setError(null)` ran before the await, so
`error` is `none` on both paths. -/
def fetchDataResolve (st : ChartHookState) (response : Option ChartDataResponse) :
    ChartHookState :=
  match response with
  | none =>
    { st with data := [],
              error := none,
              chartInfo := some ⟨"no_data", 0, false, 0⟩ }
  | some r =>
    { st with data := r.data,
              error := none,
              chartInfo := some ⟨r.data_source, r.latest_price, r.real_time, r.tick_count⟩ }

/-- The request-management state of `useChartData.fetchData`, by request
id: `controller` is the request whose AbortController
`abortControllerRef.current` holds; `abortCalled` records the
controllers on which `abort()` was invoked; `pending` records the
requests whose axios promise has not settled yet. The two are distinct
because the controller's signal is never passed to
`apiService.getChartData` (`this.api.get(url)` takes no `signal`
config), so calling `abort()` does not cancel the underlying request:
it stays pending until it resolves on its own. -/
structure FetchState where
  symbol : String
  enabled : Bool
  controller : Option Nat
  nextId : Nat
  abortCalled : List Nat
  pending : List Nat
  issued : List Nat
deriving Repr, DecidableEq

/-- Start of `fetchData` (also what a timer tick of the auto-refresh
interval runs): guard `if (!symbol || !enabled) return`; then
`abortControllerRef.current.abort()` is called on the previous
controller if one exists — which, its signal being unwired, leaves the
previous request pending — a fresh controller is installed and a new
request is issued. -/
def fetchDataStart (s : FetchState) : FetchState :=
  if s.symbol = "" ∨ s.enabled = false then s
  else
    let s1 :=
      match s.controller with
      | some i => { s with abortCalled := s.abortCalled ++ [i] }
      | none => s
    { s1 with controller := some s1.nextId,
              pending := s1.pending ++ [s1.nextId],
              issued := s1.issued ++ [s1.nextId],
              nextId := s1.nextId + 1 }

/-- Settlement of pending request `i` in `useChartData.fetchData`: the
awaited axios promise resolves — an "aborted" request resolves normally
too, never rejecting with `AbortError`, since its controller's signal
was never wired to the request — and the continuation after the `await`
runs unconditionally: nothing compares `i` with the current controller,
so the response is applied to the hook state however stale it is. -/
def fetchRequestResolve (s : FetchState) (st : ChartHookState) (i : Nat)
    (response : Option ChartDataResponse) : FetchState × ChartHookState :=
  ({ s with pending := s.pending.erase i }, fetchDataResolve st response)

/-- A live tick as seen by the Chart component's WebSocket effect: the
`newData` payload fields it reads, plus the tick timestamp carried by
the wire message (which the effect never consults). `price` is the
value of `newData.ltpc || newData.price || newData.close`, with `0`
standing for a falsy result. -/
structure TickData where
  price : Int
  volume : Option Int
  serverTimestamp : Nat
deriving Repr, DecidableEq

/-- The `updatedCandle` construction of the Chart component's real-time
effect: `high = max(lastCandle.high, price)`, `low = min(lastCandle.low,
price)`, `close = price`; `time` and `open` are kept. -/
def updateCandle (lastCandle : ChartDataPoint) (price : Int) : ChartDataPoint :=
  { lastCandle with
      high := max lastCandle.high price,
      low := min lastCandle.low price,
      close := price }

/-- The Chart component's WebSocket callback applied to the displayed
candle series: when the series is nonempty and the extracted price is
truthy, the last candle is replaced by `updatedCandle` (via
`candlestickSeriesRef.current.update`); otherwise nothing changes. No
field of the tick other than the price is inspected. -/
def chartApplyTick (series : List ChartDataPoint) (t : TickData) :
    List ChartDataPoint :=
  match series.getLast? with
  | none => series
  | some last =>
    if t.price = 0 then series
    else series.dropLast ++ [updateCandle last t.price]

/-- The candle well-formedness invariant of the spec:
`low ≤ min(open, close)` and `max(open, close) ≤ high`. -/
def candleInv (c : ChartDataPoint) : Prop :=
  c.low ≤ min c.open_ c.close ∧ max c.open_ c.close ≤ c.high

instance (c : ChartDataPoint) : Decidable (candleInv c) :=
  inferInstanceAs (Decidable (_ ∧ _))

/-- Concrete inputs for the snapshot-merge scenario: a bar at
`openTime = 0` that live ticks have driven to `volume = 800`,
`close = 105`. -/
def c1Prior : ChartDataPoint :=
  ⟨0, 100, 105, 100, 105, 800, "NIFTY", "NSE"⟩

/-- The REST snapshot's candle for the same `openTime = 0`, reporting
`volume = 500` and an older `close = 99`. -/
def c1Snap : ChartDataPoint :=
  ⟨0, 100, 104, 100, 99, 500, "NIFTY", "NSE"⟩

/-- Hook state holding the live-accumulated bar. -/
def c1State : ChartHookState := ⟨[c1Prior], none, none⟩

/-- The REST response carrying the stale snapshot. -/
def c1Resp : ChartDataResponse :=
  ⟨"NIFTY", "1m", [c1Snap], "historical", 99, false, 0⟩

/-- Concrete open candle at `openTime = 60` for the stale-tick scenario. -/
def c2Candle : ChartDataPoint :=
  ⟨60, 100, 105, 100, 105, 800, "NIFTY", "NSE"⟩

/-- Series whose most recent (open) candle is `c2Candle`. -/
def c2Series : List ChartDataPoint := [c2Candle]

/-- A stale tick: `serverTimestamp = 30`, earlier than the open candle's
`openTime = 60`. -/
def c2Tick : TickData := ⟨90, none, 30⟩

/-- A connected service with empty registries, used as the starting
state of the subscribe/unsubscribe scenarios. -/
def connService : WebSocketService := { initialService with wsOpen := true }

/-- A connected service subscribed to one instrument, as left by normal
operation before an explicit `disconnect()`. -/
def c7State : WebSocketService :=
  { initialService with wsOpen := true, pingActive := true,
                        subscribedSymbols := ["NIFTY"] }

/-- Fetch state with request 0 still outstanding when the auto-refresh
timer fires again. -/
def c8State : FetchState :=
  ⟨"NIFTY", true, some 0, 1, [], [0], [0]⟩

/-- The stale response that outstanding request 0 eventually resolves
with after a newer request has been issued. -/
def c8StaleResp : ChartDataResponse :=
  ⟨"NIFTY", "1m", [⟨0, 100, 104, 100, 99, 500, "NIFTY", "NSE"⟩],
   "historical", 99, false, 0⟩

/-- Helper: the live-tick update preserves the candle invariant. -/
theorem updateCandle_inv (c : ChartDataPoint) (p : Int) (h : candleInv c) :
    candleInv (updateCandle c p) := by
  obtain ⟨h1, h2⟩ := h
  constructor
  · exact le_min
      (le_trans (min_le_left _ _) (le_trans h1 (min_le_left _ _)))
      (min_le_right _ _)
  · exact max_le
      (le_trans (le_trans (le_max_left _ _) h2) (le_max_left _ _))
      (le_max_right _ _)

/-- Claim C3 (confirmed): starting from any candle satisfying
`low ≤ min(open, close)` and `max(open, close) ≤ high`, applying the
Chart component's live-tick update for any sequence of tick prices
yields a candle that still satisfies the invariant; the single-tick case
is the singleton sequence. -/
theorem c3_tick_sequence_invariant (c : ChartDataPoint) (ps : List Int)
    (h : candleInv c) : candleInv (ps.foldl updateCandle c) := by
  induction ps generalizing c with
  | nil => exact h
  | cons p ps ih => exact ih _ (updateCandle_inv c p h)

/-- Witness for C3: the concrete open candle O=100 H=105 L=100 C=105
satisfies the invariant, and so does the result of the tick prices
103, 99, 110. -/
theorem c3_tick_sequence_invariant_witness :
    candleInv ⟨0, 100, 105, 100, 105, 800, "NIFTY", "NSE"⟩ ∧
    candleInv (([103, 99, 110] : List Int).foldl updateCandle
      ⟨0, 100, 105, 100, 105, 800, "NIFTY", "NSE"⟩) :=
  ⟨by decide,
   c3_tick_sequence_invariant ⟨0, 100, 105, 100, 105, 800, "NIFTY", "NSE"⟩
     [103, 99, 110] (by decide)⟩

/-- Claim C6 (confirmed): with `reconnectDelay = 1000` and
`maxReconnectAttempts = 5`, six consecutive failure cycles schedule the
delays 1000, 2000, 4000, 8000, 16000 ms for attempts 1..5, and the
sixth `handleReconnect` call schedules nothing. -/
theorem c6_backoff_sequence :
    reconnectDelays initialService 6 =
      [some 1000, some 2000, some 4000, some 8000, some 16000, none] := by
  rfl

/-- Claim C9 (confirmed): a frame on which the JSON parse throws causes
no listener invocation at all, and processing of subsequent frames is
unaffected by its presence; the handler is total, so no exception
escapes. -/
theorem c9_unparsable_frame_dropped (s : WebSocketService)
    (rest : List (Option WebSocketMessage)) :
    onMessageEvent s none = [] ∧
    processFrames s (none :: rest) = processFrames s rest :=
  ⟨rfl, rfl⟩

/-- Claim C10 (confirmed): `disconnect()` empties both the
event-callback map and the subscribed-symbol set — also for callbacks
registered via `subscribe` just before — so a subsequent reconnection
replays no subscribe frame and `handleMessage` delivers nothing to
previously registered callbacks. -/
theorem c10_disconnect_clears_registries (s : WebSocketService)
    (e : String) (cb : Nat) (m : WebSocketMessage) :
    (disconnect s).callbacks = [] ∧
    (disconnect s).subscribedSymbols = [] ∧
    (disconnect (subscribe s e cb)).callbacks = [] ∧
    (onOpen (disconnect s)).2 = [] ∧
    handleMessage (onOpen (disconnect s)).1 m = [] :=
  ⟨rfl, rfl, rfl, rfl, rfl⟩

/-- Helper: folding `subscribeToSymbol` over a list of symbols that are
all already subscribed changes nothing and emits no frame. -/
theorem subAll_mem_noop (s : WebSocketService) (l : List String)
    (acc : List Frame) (h : ∀ x ∈ l, x ∈ s.subscribedSymbols) :
    subAll s l acc = (s, acc) := by
  induction l generalizing acc with
  | nil => rfl
  | cons sym rest ih =>
    have hs : sym ∈ s.subscribedSymbols := h sym (List.mem_cons_self _ _)
    have hsub : subscribeToSymbol s sym = (s, []) := by
      simp [subscribeToSymbol, hs]
    show subAll (subscribeToSymbol s sym).1 rest (acc ++ (subscribeToSymbol s sym).2) = (s, acc)
    rw [hsub]
    simpa using ih acc (fun x hx => h x (List.mem_cons_of_mem _ hx))

/-- Claim C4 (code_bug): after any reconnection, the `onopen` replay
pass emits zero subscribe frames — `resubscribeToSymbols` calls
`subscribeToSymbol` for each tracked symbol, which early-returns because
the symbol is already in `subscribedSymbols`; in particular an instrument
with an active subscription receives no replayed frame, not one. -/
theorem c4_replay_sends_no_frames (s : WebSocketService) :
    (onOpen s).2 = [] := by
  show (subAll _ _ []).2 = []
  rw [subAll_mem_noop _ _ _ (fun x hx => hx)]

/-- Claim C7 (code_bug): from a connected service, an explicit
`disconnect()` followed by the close event the socket then fires runs
`handleReconnect`, which schedules an automatic reconnection after
1000 ms — the closure caused by `disconnect` does trigger the
reconnect path. -/
theorem c7_disconnect_schedules_reconnect :
    (onClose (disconnect c7State)).2 = some 1000 := by
  rfl

/-- Claim C1 (corrected), counterexample: the hook holds a bar with
volume 800 and close 105; resolving a snapshot that reports volume 500
and close 99 for the same bar leaves volume 500 (a decrease) and close
99 (the open candle's price fields are overwritten), contradicting the
claimed merge. -/
theorem c1_counterexample :
    c1State.data.map (fun c => c.volume) = [800] ∧
    c1State.data.map (fun c => c.close) = [105] ∧
    (fetchDataResolve c1State (some c1Resp)).data.map (fun c => c.volume) = [500] ∧
    (fetchDataResolve c1State (some c1Resp)).data.map (fun c => c.close) = [99] := by
  decide

/-- Claim C1 (corrected), amended: the polling fallback performs no
field-wise merge — a successful snapshot replaces the stored series
wholesale, so every field, volume and the open candle's high/low/close
included, takes the snapshot's value (500 in the scenario, not 800). -/
theorem c1_snapshot_replaces_series (st : ChartHookState) (r : ChartDataResponse) :
    (fetchDataResolve st (some r)).data = r.data :=
  rfl

/-- Claim C2 (corrected), counterexample: a tick with
`serverTimestamp = 30`, earlier than the open candle's `openTime = 60`,
does not leave the series unchanged — the last candle's low and close
become the stale price. -/
theorem c2_counterexample :
    c2Tick.serverTimestamp < c2Candle.time ∧
    chartApplyTick c2Series c2Tick ≠ c2Series := by
  decide

/-- Claim C2 (corrected), amended: the Chart effect consults no
timestamp — a tick with nonzero price whose `serverTimestamp` is earlier
than the last (open) candle's `openTime` is applied to that candle
exactly like a fresh tick (`high = max`, `low = min`, `close = price`);
stale data is not dropped. -/
theorem c2_stale_tick_applied (series : List ChartDataPoint) (t : TickData)
    (last : ChartDataPoint) (hlast : series.getLast? = some last)
    (hp : t.price ≠ 0) (hstale : t.serverTimestamp < last.time) :
    chartApplyTick series t = series.dropLast ++ [updateCandle last t.price] := by
  simp [chartApplyTick, hlast, hp]

/-- Witness for the amended C2 at the concrete stale-tick scenario. -/
theorem c2_stale_tick_applied_witness :
    chartApplyTick c2Series c2Tick =
      c2Series.dropLast ++ [updateCandle c2Candle c2Tick.price] :=
  c2_stale_tick_applied c2Series c2Tick c2Candle (by rfl) (by decide) (by decide)

/-- Claim C5 (corrected), counterexample: subscribing `NIFTY` twice and
unsubscribing once leaves the instrument unsubscribed and sends the
unsubscribe frame — the wire subscription does not survive. -/
theorem c5_counterexample :
    "NIFTY" ∉ (unsubscribeFromSymbol
      (subscribeToSymbol (subscribeToSymbol connService "NIFTY").1 "NIFTY").1
      "NIFTY").1.subscribedSymbols ∧
    (unsubscribeFromSymbol
      (subscribeToSymbol (subscribeToSymbol connService "NIFTY").1 "NIFTY").1
      "NIFTY").2 = [Frame.unsubscribe "NIFTY"] := by
  decide

/-- Claim C5 (corrected), amended: the registry is a set, not a
refcount — for a connected service and a not-yet-subscribed symbol, the
first subscribe adds it and sends one subscribe frame, the second
subscribe is a no-op, the first unsubscribe removes it and sends the
unsubscribe frame, and a second unsubscribe is a no-op. -/
theorem c5_set_semantics (s : WebSocketService) (sym : String)
    (hopen : s.wsOpen = true) (hnew : sym ∉ s.subscribedSymbols) :
    (subscribeToSymbol s sym).2 = [Frame.subscribe sym] ∧
    subscribeToSymbol (subscribeToSymbol s sym).1 sym =
      ((subscribeToSymbol s sym).1, []) ∧
    (unsubscribeFromSymbol (subscribeToSymbol s sym).1 sym).1.subscribedSymbols =
      s.subscribedSymbols ∧
    (unsubscribeFromSymbol (subscribeToSymbol s sym).1 sym).2 =
      [Frame.unsubscribe sym] ∧
    unsubscribeFromSymbol (unsubscribeFromSymbol (subscribeToSymbol s sym).1 sym).1 sym =
      ((unsubscribeFromSymbol (subscribeToSymbol s sym).1 sym).1, []) := by
  have hsub : subscribeToSymbol s sym =
      ({ s with subscribedSymbols := s.subscribedSymbols ++ [sym] },
        [Frame.subscribe sym]) := by
    simp [subscribeToSymbol, hnew, send, hopen]
  have hmem : sym ∈ s.subscribedSymbols ++ [sym] := by simp
  have herase : (s.subscribedSymbols ++ [sym]).erase sym = s.subscribedSymbols := by
    rw [List.erase_append_right _ hnew, List.erase_cons_head, List.append_nil]
  refine ⟨by rw [hsub], ?_, ?_, ?_, ?_⟩
  · rw [hsub]
    simp [subscribeToSymbol, hmem]
  · rw [hsub]
    simp [unsubscribeFromSymbol, hmem, herase]
  · rw [hsub]
    simp [unsubscribeFromSymbol, hmem, herase, send, hopen]
  · rw [hsub]
    simp [unsubscribeFromSymbol, hmem, herase, send, hopen, hnew]

/-- Witness for the amended C5 at the concrete connected service and
symbol `NIFTY`. -/
theorem c5_set_semantics_witness :
    (subscribeToSymbol connService "NIFTY").2 = [Frame.subscribe "NIFTY"] ∧
    subscribeToSymbol (subscribeToSymbol connService "NIFTY").1 "NIFTY" =
      ((subscribeToSymbol connService "NIFTY").1, []) ∧
    (unsubscribeFromSymbol (subscribeToSymbol connService "NIFTY").1 "NIFTY").1.subscribedSymbols =
      connService.subscribedSymbols ∧
    (unsubscribeFromSymbol (subscribeToSymbol connService "NIFTY").1 "NIFTY").2 =
      [Frame.unsubscribe "NIFTY"] ∧
    unsubscribeFromSymbol
        (unsubscribeFromSymbol (subscribeToSymbol connService "NIFTY").1 "NIFTY").1 "NIFTY" =
      ((unsubscribeFromSymbol (subscribeToSymbol connService "NIFTY").1 "NIFTY").1, []) :=
  c5_set_semantics connService "NIFTY" rfl (by decide)

/-- Claim C8 (corrected), counterexample: a timer tick that fires while
request 0 is still outstanding does not skip — it issues the duplicate
request 1 — and because the abort signal is not wired to the request,
request 0 is still pending afterwards, so two requests for the key are
in flight at once, refuting both halves of the claim. -/
theorem c8_counterexample :
    (fetchDataStart c8State).issued = [0, 1] ∧
    (fetchDataStart c8State).pending = [0, 1] ∧
    ¬(fetchDataStart c8State).pending.length ≤ 1 ∧
    fetchDataStart c8State ≠ c8State := by
  decide

/-- Claim C8 (corrected), amended: when the guard passes, every
`fetchData` run — a timer tick included — calls `abort()` on the
previous controller and issues one new request, but the abort cancels
nothing (the signal is never passed to the axios call), so the previous
request remains pending alongside the new one, and whenever the old
request later settles, its stale response is still applied to the hook
state. -/
theorem c8_abort_not_wired (s : FetchState) (st : ChartHookState)
    (r : ChartDataResponse) (i : Nat)
    (hsym : s.symbol ≠ "") (hen : s.enabled = true) :
    (fetchDataStart s).issued = s.issued ++ [s.nextId] ∧
    (fetchDataStart s).controller = some s.nextId ∧
    (fetchDataStart s).abortCalled = s.abortCalled ++ s.controller.toList ∧
    (fetchDataStart s).pending = s.pending ++ [s.nextId] ∧
    (fetchDataStart s).nextId = s.nextId + 1 ∧
    (fetchRequestResolve (fetchDataStart s) st i (some r)).2.data = r.data := by
  have hguard : ¬(s.symbol = "" ∨ s.enabled = false) := by
    rintro (h | h)
    · exact hsym h
    · rw [hen] at h; cases h
  cases hin : s.controller <;>
    simp [fetchDataStart, fetchRequestResolve, fetchDataResolve,
      hguard, hin, Option.toList]

/-- Witness for the amended C8: the timer tick at the concrete
outstanding-request state, with stale request 0 then resolving against
an empty hook state. -/
theorem c8_abort_not_wired_witness :
    (fetchDataStart c8State).issued = c8State.issued ++ [c8State.nextId] ∧
    (fetchDataStart c8State).controller = some c8State.nextId ∧
    (fetchDataStart c8State).abortCalled =
      c8State.abortCalled ++ c8State.controller.toList ∧
    (fetchDataStart c8State).pending = c8State.pending ++ [c8State.nextId] ∧
    (fetchDataStart c8State).nextId = c8State.nextId + 1 ∧
    (fetchRequestResolve (fetchDataStart c8State) ⟨[], none, none⟩ 0
      (some c8StaleResp)).2.data = c8StaleResp.data :=
  c8_abort_not_wired c8State ⟨[], none, none⟩ c8StaleResp 0 (by decide) rfl

end TraderX
